import Mathlib

set_option linter.unreachableTactic false
set_option linter.unusedTactic false
set_option linter.unnecessarySeqFocus false
set_option linter.unusedVariables false

/-!
Verification development for the tax-insurance-optimizer repository.

The repository has two Python modules:
  * src/agents/insurance_recommendation_engine.py  (namespace `Engine` below)
  * src/agents/tax_optimizer_agent.py              (namespace `Agent` below)

Modelling conventions:
  * Python floats and Decimals are modelled as exact rationals (ℚ); every
    arithmetic operation in the source (division by 30, by 27.5, percentage
    computation, currency sums) is exact on the sample magnitudes involved,
    so ℚ reflects the intended arithmetic of the code.
  * Python f-strings that interpolate a numeric value are modelled as
    constructors of an inductive message type carrying the interpolated
    number, so that the numeric content of each emitted message is visible
    to the theorems; fixed literal strings are modelled as nullary
    constructors (the exact text is quoted in the doc comment of each
    constructor).
  * Database reads are modelled by passing the fetched record lists as
    explicit arguments; database writes and the supabase client are
    modelled as an injected store callback returning `Except` (success or
    an error message), mirroring the try/except at the persistence
    boundary.
-/

/-- ACA eligibility tier, the six return values of
`determine_eligibility_tier` in insurance_recommendation_engine.py. -/
inductive Tier
  | coverage_gap
  | csr_94
  | csr_87
  | csr_73
  | subsidy_only
  | no_subsidy
deriving DecidableEq, Repr

namespace Engine

/-- The `FPL_2026` dictionary of insurance_recommendation_engine.py
(2026 Federal Poverty Level by household size 1..8); absent keys are `none`. -/
def FPL_2026 (household_size : ℕ) : Option ℚ :=
  if household_size = 1 then some 15650
  else if household_size = 2 then some 21150
  else if household_size = 3 then some 26650
  else if household_size = 4 then some 32150
  else if household_size = 5 then some 37650
  else if household_size = 6 then some 43150
  else if household_size = 7 then some 48650
  else if household_size = 8 then some 54150
  else none

/-- Models `FPL_2026.get(household_size, 15650)` in
`calculate_fpl_percentage`: table lookup with silent default 15650. -/
def fplLookup (household_size : ℕ) : ℚ :=
  (FPL_2026 household_size).getD 15650

/-- `calculate_fpl_percentage(self, magi, household_size)`:
`fpl = FPL_2026.get(household_size, 15650); return (magi / fpl) * 100`. -/
def calculate_fpl_percentage (magi : ℚ) (household_size : ℕ) : ℚ :=
  (magi / fplLookup household_size) * 100

/-- `determine_eligibility_tier(self, fpl_pct)`: the if/elif chain mapping an
FPL percentage to a (tier, description) pair. Descriptions are the source
string literals with the leading emoji dropped. -/
def determine_eligibility_tier (fpl_pct : ℚ) : Tier × String :=
  if fpl_pct < 100 then
    (Tier.coverage_gap, "COVERAGE GAP - No ACA subsidies, no Medicaid in Florida!")
  else if fpl_pct ≤ 150 then
    (Tier.csr_94, "BEST: Silver CSR 94% - $0 deductible, lowest copays")
  else if fpl_pct ≤ 200 then
    (Tier.csr_87, "GOOD: Silver CSR 87% - Low deductible, good copays")
  else if fpl_pct ≤ 250 then
    (Tier.csr_73, "OK: Silver CSR 73% - Standard silver benefits")
  else if fpl_pct ≤ 400 then
    (Tier.subsidy_only, "Subsidy only - No cost-sharing reductions")
  else
    (Tier.no_subsidy, "NO SUBSIDIES - Above 400% FPL")

/-- The `InsurancePlan` dataclass of insurance_recommendation_engine.py. -/
structure InsurancePlan where
  plan_type : String
  carrier : String
  plan_name : String
  metal_tier : String
  monthly_premium : String
  deductible : String
  out_of_pocket_max : String
  copay_primary : String
  copay_specialist : String
  includes_dental : Bool
  includes_vision : Bool
  network_type : String
  key_hospitals : List String
  enrollment_deadline : String
  coverage_start : String
  notes : List String
deriving DecidableEq, Repr

/-- The Florida Blue Silver plan built for CSR tiers in `get_florida_plans`;
the premium, deductible and out-of-pocket strings depend on whether the
tier is `csr_94`. -/
def florida_blue_silver (tier : Tier) : InsurancePlan :=
  { plan_type := "ACA Marketplace"
    carrier := "Florida Blue"
    plan_name := "BlueOptions Silver PPO"
    metal_tier := "Silver + CSR"
    monthly_premium := if tier = Tier.csr_94 then "$0-75" else "$50-150"
    deductible := if tier = Tier.csr_94 then "$0" else "$250-1000"
    out_of_pocket_max := if tier = Tier.csr_94 then "$1,350" else "$2,500-4,000"
    copay_primary := "$5-10"
    copay_specialist := "$10-25"
    includes_dental := false
    includes_vision := true
    network_type := "PPO"
    key_hospitals := ["Mayo Clinic Jacksonville", "UF Health", "AdventHealth", "Baptist Health"]
    enrollment_deadline := "December 15"
    coverage_start := "January 1"
    notes := ["Largest network in Florida", "No referrals needed for specialists",
              "Mayo Clinic is IN-NETWORK", "BlueCard for nationwide coverage"] }

/-- The Ambetter Silver plan built for CSR tiers in `get_florida_plans`. -/
def ambetter_silver (tier : Tier) : InsurancePlan :=
  { plan_type := "ACA Marketplace"
    carrier := "Ambetter from Sunshine Health"
    plan_name := "Secure Care Silver"
    metal_tier := "Silver + CSR"
    monthly_premium := if tier = Tier.csr_94 then "$0-50" else "$25-100"
    deductible := if tier = Tier.csr_94 then "$0" else "$200-800"
    out_of_pocket_max := if tier = Tier.csr_94 then "$1,350" else "$2,000-3,500"
    copay_primary := "$5"
    copay_specialist := "$15-30"
    includes_dental := false
    includes_vision := true
    network_type := "HMO"
    key_hospitals := ["Cleveland Clinic Florida", "Memorial Healthcare", "AdventHealth"]
    enrollment_deadline := "December 15"
    coverage_start := "January 1"
    notes := ["Lowest premiums", "Telehealth included",
              "Requires referrals for specialists", "Good for routine care"] }

/-- The Florida Blue Silver (no CSR) plan built for the `subsidy_only` tier. -/
def florida_blue_silver_no_csr : InsurancePlan :=
  { plan_type := "ACA Marketplace"
    carrier := "Florida Blue"
    plan_name := "BlueOptions Silver PPO"
    metal_tier := "Silver (No CSR)"
    monthly_premium := "$150-300"
    deductible := "$2,000-4,000"
    out_of_pocket_max := "$6,500-8,000"
    copay_primary := "$30-50"
    copay_specialist := "$50-75"
    includes_dental := false
    includes_vision := true
    network_type := "PPO"
    key_hospitals := ["Mayo Clinic Jacksonville", "UF Health"]
    enrollment_deadline := "December 15"
    coverage_start := "January 1"
    notes := ["Consider reducing MAGI for CSR benefits",
              "Bronze plan may be better value", "HSA-eligible plans available"] }

/-- The Direct Primary Care alternative built for the `coverage_gap` tier. -/
def dpc_membership : InsurancePlan :=
  { plan_type := "Alternative"
    carrier := "Direct Primary Care"
    plan_name := "Concierge/DPC Membership"
    metal_tier := "N/A"
    monthly_premium := "$75-150"
    deductible := "N/A"
    out_of_pocket_max := "N/A"
    copay_primary := "$0 (included)"
    copay_specialist := "Pay separately"
    includes_dental := false
    includes_vision := false
    network_type := "Direct"
    key_hospitals := []
    enrollment_deadline := "Anytime"
    coverage_start := "Immediately"
    notes := ["NOT insurance - primary care membership only",
              "INCREASE INCOME to $15,650+ for ACA eligibility!",
              "Consider short-term health insurance for emergencies",
              "Negotiate cash rates at hospitals"] }

/-- The unsubsidized Gold plan built for the `no_subsidy` tier. -/
def florida_blue_gold : InsurancePlan :=
  { plan_type := "ACA Marketplace (Unsubsidized)"
    carrier := "Florida Blue"
    plan_name := "BlueOptions Gold PPO"
    metal_tier := "Gold"
    monthly_premium := "$400-600"
    deductible := "$0-500"
    out_of_pocket_max := "$4,000-6,000"
    copay_primary := "$25"
    copay_specialist := "$50"
    includes_dental := false
    includes_vision := true
    network_type := "PPO"
    key_hospitals := ["Mayo Clinic Jacksonville", "UF Health"]
    enrollment_deadline := "December 15"
    coverage_start := "January 1"
    notes := ["Consider employer coverage if available",
              "HSA with HDHP may reduce taxes",
              "Health sharing ministries as alternative"] }

/-- The dental plan appended for every tier at the end of `get_florida_plans`. -/
def dental_plan : InsurancePlan :=
  { plan_type := "Dental"
    carrier := "Delta Dental / Ameritas"
    plan_name := "PPO Dental Plan"
    metal_tier := "N/A"
    monthly_premium := "$25-45"
    deductible := "$50-100"
    out_of_pocket_max := "$1,500-2,000 annual max"
    copay_primary := "$0 preventive"
    copay_specialist := "20-50% coinsurance"
    includes_dental := true
    includes_vision := false
    network_type := "PPO"
    key_hospitals := []
    enrollment_deadline := "December 15"
    coverage_start := "January 1"
    notes := ["Preventive care 100% covered",
              "12-month waiting period for major work",
              "Enroll separately from health plan",
              "Orthodontics has lifetime max"] }

/-- `get_florida_plans(self, tier)`: tier-specific marketplace plans, with the
dental plan appended unconditionally at the end. -/
def get_florida_plans (tier : Tier) : List InsurancePlan :=
  let plans : List InsurancePlan :=
    if tier = Tier.csr_94 ∨ tier = Tier.csr_87 ∨ tier = Tier.csr_73 then
      [florida_blue_silver tier, ambetter_silver tier]
    else if tier = Tier.subsidy_only then
      [florida_blue_silver_no_csr]
    else if tier = Tier.coverage_gap then
      [dpc_membership]
    else if tier = Tier.no_subsidy then
      [florida_blue_gold]
    else []
  plans ++ [dental_plan]

/-- Action items emitted by `generate_action_items`; f-strings interpolating a
number become constructors carrying that number. -/
inductive ActionItem
  /-- Source string "URGENT: Increase taxable income by $(shortfall) to qualify for ACA",
  where shortfall is computed as 15650 - magi. -/
  | urgent_increase_income (shortfall : ℚ)
  /-- Source string "Review deductions - consider reducing to increase MAGI" -/
  | review_deductions
  /-- Source string "Report all side income, tips, gig work" -/
  | report_side_income
  /-- Source string "DO NOT prepay property taxes or other expenses" -/
  | do_not_prepay_expenses
  /-- Source string "Visit healthcare.gov by December 15" -/
  | visit_healthcare_gov
  /-- Source string "Have income documentation ready (1099s, rental income)" -/
  | income_documentation_ready
  /-- Source string "Compare at least 3 plans before enrolling" -/
  | compare_three_plans
  /-- Source string "Check if your doctors are in-network" -/
  | check_doctors_in_network
  /-- Source string "Enroll in dental separately (same deadline)" -/
  | enroll_dental_separately
  /-- Source string "MUST choose SILVER plan to get cost-sharing reductions" -/
  | must_choose_silver
  /-- Source string "Bronze/Gold plans do NOT include CSR benefits" -/
  | bronze_gold_no_csr
deriving DecidableEq, Repr

/-- `generate_action_items(self, tier, magi)`: coverage-gap items (with the
shortfall 15650 - magi interpolated into the first item) or enrollment
items, plus two Silver-plan items for the csr_94 / csr_87 tiers. -/
def generate_action_items (tier : Tier) (magi : ℚ) : List ActionItem :=
  let items :=
    if tier = Tier.coverage_gap then
      [ActionItem.urgent_increase_income (15650 - magi),
       ActionItem.review_deductions,
       ActionItem.report_side_income,
       ActionItem.do_not_prepay_expenses]
    else
      [ActionItem.visit_healthcare_gov,
       ActionItem.income_documentation_ready,
       ActionItem.compare_three_plans,
       ActionItem.check_doctors_in_network,
       ActionItem.enroll_dental_separately]
  if tier = Tier.csr_94 ∨ tier = Tier.csr_87 then
    items ++ [ActionItem.must_choose_silver, ActionItem.bronze_gold_no_csr]
  else items

/-- Warnings emitted by `generate_warnings` (all fixed strings in the source). -/
inductive Warning
  /-- Source string "FLORIDA COVERAGE GAP: You are NOT eligible for ACA subsidies or Medicaid" -/
  | florida_coverage_gap
  /-- Source string "Without insurance, a hospital stay could cost $50,000+" -/
  | uninsured_hospital_cost
  /-- Source string "Close to CSR tier boundary - monitor income carefully" -/
  | csr_tier_boundary
  /-- Source string "Close to subsidy cliff at 400% FPL - reducing MAGI could save thousands" -/
  | subsidy_cliff_400
deriving DecidableEq, Repr

/-- `generate_warnings(self, tier, magi, fpl_pct)`: two warnings for the
coverage-gap tier; a boundary warning when 145 <= fpl_pct <= 155; a cliff
warning when fpl_pct >= 395. The magi argument is unused in the source body. -/
def generate_warnings (tier : Tier) (magi fpl_pct : ℚ) : List Warning :=
  (if tier = Tier.coverage_gap then
    [Warning.florida_coverage_gap, Warning.uninsured_hospital_cost]
   else []) ++
  (if 145 ≤ fpl_pct ∧ fpl_pct ≤ 155 then [Warning.csr_tier_boundary] else []) ++
  (if 395 ≤ fpl_pct then [Warning.subsidy_cliff_400] else [])

/-- Optimization tips emitted by `generate_optimization_tips`; f-strings
interpolating a number become constructors carrying that number. -/
inductive Tip
  /-- Source string "INCREASE income by $(shortfall) - reduces deductions or report more income" -/
  | increase_income_by (shortfall : ℚ)
  /-- Source string "Consider Roth IRA conversion to increase MAGI (careful with taxes)" -/
  | roth_conversion
  /-- Source string "REDUCE MAGI by $(excess) to qualify for CSR 73%" -/
  | reduce_magi_for_csr73 (excess : ℚ)
  /-- Source string "Maximize Schedule E deductions (repairs, maintenance)" -/
  | maximize_schedule_e
  /-- Source string "Prepay property taxes before year-end" -/
  | prepay_property_taxes
  /-- Source string "Increase retirement contributions (SEP-IRA, Solo 401k)" -/
  | increase_retirement_contributions
  /-- Source string "REDUCE MAGI by $(excess) to qualify for premium subsidies" -/
  | reduce_magi_for_subsidies (excess : ℚ)
  /-- Source string "Consider health savings account (HSA) contributions" -/
  | hsa_contributions
  /-- Source string "Review all business expenses for optimization" -/
  | review_business_expenses
  /-- Source string "You are in an optimal tier - maintain current income level" -/
  | optimal_tier_maintain_income
  /-- Source string "Monitor mid-year to ensure you stay in range" -/
  | monitor_mid_year
  /-- Source string "Consider SEP-IRA contributions if approaching tier limit" -/
  | sep_ira_near_limit
deriving DecidableEq, Repr

/-- `generate_optimization_tips(self, tier, magi, fpl_pct)`: tier-specific
tips and a static savings estimate (5000 / 2000 / 6000 / 0). The interpolated
amounts are 15650 - magi (coverage gap), magi - 39125 (subsidy_only,
target_magi = top of CSR 73%) and magi - 62600 (no_subsidy, below the cliff).
The fpl_pct argument is unused in the source body; csr_73 matches no branch
and yields no tips and savings 0. -/
def generate_optimization_tips (tier : Tier) (magi fpl_pct : ℚ) : List Tip × ℚ :=
  if tier = Tier.coverage_gap then
    ([Tip.increase_income_by (15650 - magi), Tip.roth_conversion], 5000)
  else if tier = Tier.subsidy_only then
    ([Tip.reduce_magi_for_csr73 (magi - 39125), Tip.maximize_schedule_e,
      Tip.prepay_property_taxes, Tip.increase_retirement_contributions], 2000)
  else if tier = Tier.no_subsidy then
    ([Tip.reduce_magi_for_subsidies (magi - 62600), Tip.hsa_contributions,
      Tip.review_business_expenses], 6000)
  else if tier = Tier.csr_94 ∨ tier = Tier.csr_87 then
    ([Tip.optimal_tier_maintain_income, Tip.monitor_mid_year,
      Tip.sep_ira_near_limit], 0)
  else ([], 0)

/-- Python rounding of a rational to the nearest integer, ties to even
(the semantics of builtin `round`). -/
def round_half_even (x : ℚ) : ℤ :=
  let f := Int.floor x
  let frac := x - f
  if frac < 1/2 then f
  else if 1/2 < frac then f + 1
  else if Even f then f else f + 1

/-- Models Python `round(x, 1)`: one decimal digit, ties to even. -/
def round_to_tenth (x : ℚ) : ℚ :=
  (round_half_even (10 * x) : ℚ) / 10

/-- The `InsuranceRecommendation` dataclass. `generated_at` is the injected
clock string (`datetime.now().isoformat()` in the source). -/
structure InsuranceRecommendation where
  magi : ℚ
  household_size : ℕ
  fpl_percentage : ℚ
  eligibility_tier : Tier
  tier_description : String
  recommended_plans : List InsurancePlan
  action_items : List ActionItem
  warnings : List Warning
  optimization_tips : List Tip
  annual_savings_potential : ℚ
  generated_at : String
deriving DecidableEq, Repr

/-- Models `_store_recommendation(self, rec)`: the insert into
`tax_agent_decisions` is an injected callback; any error is caught and turned
into the console line "Warning: Could not store recommendation: (e)".
The returned list is the console output of the call ([] on success). -/
def store_recommendation (store : InsuranceRecommendation → Except String Unit)
    (rec : InsuranceRecommendation) : List String :=
  match store rec with
  | Except.ok _ => []
  | Except.error e => ["Warning: Could not store recommendation: " ++ e]

/-- `generate_recommendation(self, magi, household_size)`: computes the FPL
percentage, tier, plans, action items, warnings, tips and savings, assembles
the recommendation (with `fpl_percentage` rounded to one decimal), then — if
a supabase client is configured — offers it to the store callback. Returns
the recommendation together with the console output of the store attempt. -/
def generate_recommendation
    (supabase : Option (InsuranceRecommendation → Except String Unit))
    (now : String) (magi : ℚ) (household_size : ℕ) :
    InsuranceRecommendation × List String :=
  let fpl_pct := calculate_fpl_percentage magi household_size
  let td := determine_eligibility_tier fpl_pct
  let plans := get_florida_plans td.1
  let action_items := generate_action_items td.1 magi
  let warnings := generate_warnings td.1 magi fpl_pct
  let ts := generate_optimization_tips td.1 magi fpl_pct
  let recommendation : InsuranceRecommendation :=
    { magi := magi
      household_size := household_size
      fpl_percentage := round_to_tenth fpl_pct
      eligibility_tier := td.1
      tier_description := td.2
      recommended_plans := plans
      action_items := action_items
      warnings := warnings
      optimization_tips := ts.1
      annual_savings_potential := ts.2
      generated_at := now }
  match supabase with
  | none => (recommendation, [])
  | some store => (recommendation, store_recommendation store recommendation)

end Engine

namespace Agent

/-- The `SCHEDULE_E_CATEGORIES` dictionary of tax_optimizer_agent.py:
expense category → Schedule E line number (absent categories are `none`). -/
def schedule_e_line (category : String) : Option ℕ :=
  if category = "advertising" then some 5
  else if category = "auto_travel" then some 6
  else if category = "cleaning_maintenance" then some 7
  else if category = "commissions" then some 8
  else if category = "insurance" then some 9
  else if category = "legal_professional" then some 10
  else if category = "management_fees" then some 11
  else if category = "mortgage_interest" then some 12
  else if category = "other_interest" then some 13
  else if category = "repairs" then some 14
  else if category = "supplies" then some 15
  else if category = "property_taxes" then some 16
  else if category = "utilities" then some 17
  else if category = "depreciation" then some 18
  else if category = "other" then some 19
  else none

/-- A row of the `rental_properties` table, with the fields `calculate_magi`
and `add_rental_property` touch. -/
structure PropertyRecord where
  id : ℕ
  purchase_price : ℚ
  current_market_value : ℚ
  mortgage_balance : ℚ
  depreciation_basis : ℚ
  annual_depreciation : ℚ
deriving DecidableEq, Repr

/-- `add_rental_property(...)`: derives `building_value = purchase_price * 0.80`
and `annual_depreciation = building_value / 27.5`, stored on the record. -/
def add_rental_property (id : ℕ)
    (purchase_price current_value mortgage_balance : ℚ) : PropertyRecord :=
  let building_value := purchase_price * (80 / 100)
  let annual_depreciation := building_value / (55 / 2)
  { id := id
    purchase_price := purchase_price
    current_market_value := current_value
    mortgage_balance := mortgage_balance
    depreciation_basis := building_value
    annual_depreciation := annual_depreciation }

/-- A row of the `rental_income` table. -/
structure IncomeRecord where
  property_id : ℕ
  year : ℤ
  month : ℕ
  gross_rent : ℚ
  vacancy_days : ℕ
  vacancy_loss : ℚ
  other_income : ℚ
  collected : Bool
deriving DecidableEq, Repr

/-- `record_rental_income(...)`: `daily_rate = gross_rent / 30`,
`vacancy_loss = daily_rate * vacancy_days`, stored with `collected = True`. -/
def record_rental_income (property_id : ℕ) (year : ℤ) (month : ℕ)
    (gross_rent : ℚ) (vacancy_days : ℕ) (other_income : ℚ) : IncomeRecord :=
  let daily_rate := gross_rent / 30
  let vacancy_loss := daily_rate * (vacancy_days : ℚ)
  { property_id := property_id
    year := year
    month := month
    gross_rent := gross_rent
    vacancy_days := vacancy_days
    vacancy_loss := vacancy_loss
    other_income := other_income
    collected := true }

/-- A row of the `rental_expenses` table, with the fields `record_expense`
inserts and `calculate_magi` reads. -/
structure ExpenseRecord where
  property_id : ℕ
  year : ℤ
  month : Option ℕ
  category : String
  amount : ℚ
  schedule_e_line : ℕ
deriving DecidableEq, Repr

/-- `record_expense(...)`: raises ValueError when the category is not in
`SCHEDULE_E_CATEGORIES` (modelled as `Except.error`); otherwise inserts the
record with the category's Schedule E line. The source performs no
validation of `amount`. -/
def record_expense (property_id : ℕ) (year : ℤ) (category : String)
    (amount : ℚ) (month : Option ℕ) : Except String ExpenseRecord :=
  match schedule_e_line category with
  | none => Except.error "Invalid category"
  | some line =>
      Except.ok
        { property_id := property_id
          year := year
          month := month
          category := category
          amount := amount
          schedule_e_line := line }

/-- Income thresholds of the legacy `THRESHOLDS_2025` table: program and
filing status → dollar threshold. The non-income keys of the Python
sub-dicts (asset limits, fpl_percentage, warning strings) are modelled by
the separate constants below; callers of the income lookup only pass filing
statuses. -/
def THRESHOLDS_2025_income (program filing_status : String) : Option ℚ :=
  if program = "medicaid" then
    (if filing_status = "single" then some 20121
     else if filing_status = "married" then some 27214 else none)
  else if program = "aca_silver_csr" then
    (if filing_status = "single" then some 36450
     else if filing_status = "married" then some 49350 else none)
  else if program = "aca_bronze" then
    (if filing_status = "single" then some 58320
     else if filing_status = "married" then some 79120 else none)
  else none

/-- Models `THRESHOLDS_2025.get(target_program, {}).get(filing_status, 20121)`
(the expression used in both `get_or_create_tax_year` and `calculate_magi`):
silent default 20121 when the program or filing status is absent. -/
def income_goal (program filing_status : String) : ℚ :=
  (THRESHOLDS_2025_income program filing_status).getD 20121

/-- `THRESHOLDS_2025["medicaid"]["asset_limit_single"]`. -/
def medicaid_asset_limit_single : ℚ := 2000

/-- `THRESHOLDS_2025["medicaid"]["asset_limit_married"]`. -/
def medicaid_asset_limit_married : ℚ := 3000

/-- `THRESHOLDS_2025["aca_silver_csr"]["asset_limit"]` (None in the source). -/
def aca_silver_csr_asset_limit : Option ℚ := none

/-- `THRESHOLDS_2025["aca_bronze"]["asset_limit"]` (None in the source). -/
def aca_bronze_asset_limit : Option ℚ := none

/-- `OPTIMAL_MAGI_TARGET["minimum"]`. -/
def OPTIMAL_MAGI_TARGET_minimum : ℚ := 15650

/-- `OPTIMAL_MAGI_TARGET["optimal_high"]`. -/
def OPTIMAL_MAGI_TARGET_optimal_high : ℚ := 20121

/-- The `MAGICalculation` dataclass of tax_optimizer_agent.py. -/
structure MAGICalculation where
  year : ℤ
  gross_rental_income : ℚ
  total_expenses : ℚ
  net_rental_income : ℚ
  other_income : ℚ
  adjustments : ℚ
  agi : ℚ
  magi : ℚ
  target_program : String
  threshold : ℚ
  headroom : ℚ
  on_track : Bool
deriving DecidableEq, Repr

/-- `calculate_magi(self, tax_year_id, year)`: the database fetches are
modelled as explicit record lists. Income and expense rows are filtered by
membership of their property in the tax year's property set and by the
target year; depreciation is summed over all properties of the tax year. -/
def calculate_magi (target_program filing_status : String)
    (props : List PropertyRecord) (incomes : List IncomeRecord)
    (expenses : List ExpenseRecord) (year : ℤ) : MAGICalculation :=
  let property_ids := props.map (fun p => p.id)
  let inc := incomes.filter
    (fun r => property_ids.contains r.property_id && r.year == year)
  let gross_income := (inc.map (fun r => r.gross_rent)).sum
  let vacancy_loss := (inc.map (fun r => r.vacancy_loss)).sum
  let other_income := (inc.map (fun r => r.other_income)).sum
  let exp := expenses.filter
    (fun e => property_ids.contains e.property_id && e.year == year)
  let expense_sum := (exp.map (fun e => e.amount)).sum
  let depreciation := (props.map (fun p => p.annual_depreciation)).sum
  let total_expenses := expense_sum + depreciation
  let net_rental := gross_income - vacancy_loss + other_income - total_expenses
  let agi := net_rental
  let magi := agi
  let threshold := income_goal target_program filing_status
  let headroom := threshold - magi
  let on_track := decide (magi ≤ threshold)
  { year := year
    gross_rental_income := gross_income
    total_expenses := total_expenses
    net_rental_income := net_rental
    other_income := other_income
    adjustments := 0
    agi := agi
    magi := magi
    target_program := target_program
    threshold := threshold
    headroom := headroom
    on_track := on_track }

/-- A row of the `asset_tracking` table. -/
structure Asset where
  asset_type : String
  current_value : ℚ
  is_countable : Bool
  exempt_reason : Option String
deriving DecidableEq, Repr

/-- The `AssetSummary` dataclass of tax_optimizer_agent.py. -/
structure AssetSummary where
  total_countable : ℚ
  total_exempt : ℚ
  asset_limit : ℚ
  under_limit : Bool
  countable_assets : List Asset
  exempt_assets : List Asset
deriving DecidableEq, Repr

/-- `check_asset_eligibility(self, tax_year_id)`: always selects the Medicaid
asset limit for the tax year's filing status (2000 single, 3000 otherwise),
partitions the tracked assets by their `is_countable` flag, sums each part
and compares the countable sum to the limit. The tax year's target program
is never consulted. -/
def check_asset_eligibility (filing_status : String)
    (assets : List Asset) : AssetSummary :=
  let asset_limit : ℚ :=
    if filing_status = "single" then medicaid_asset_limit_single
    else medicaid_asset_limit_married
  let countable := assets.filter (fun a => a.is_countable)
  let exempt := assets.filter (fun a => !a.is_countable)
  let total_countable := (countable.map (fun a => a.current_value)).sum
  let total_exempt := (exempt.map (fun a => a.current_value)).sum
  { total_countable := total_countable
    total_exempt := total_exempt
    asset_limit := asset_limit
    under_limit := decide (total_countable ≤ asset_limit)
    countable_assets := countable
    exempt_assets := exempt }

/-- The `action_type` strings of the recommendation dicts built in
`get_optimization_recommendations`. -/
inductive ActionType
  | COVERAGE_GAP_WARNING
  | OPTIMAL_RANGE
  | GOOD_BUT_WATCH
  | CSR_87_RANGE
  | NO_CSR
  | NO_SUBSIDIES
  | DEADLINE_REMINDER
deriving DecidableEq, Repr

/-- The `description` f-strings of the recommendation dicts; each carries the
interpolated MAGI. -/
inductive RecDescription
  /-- Source string "DANGER: MAGI $(magi) is BELOW $15,650 minimum! You are in Florida COVERAGE GAP - NO subsidies, NO Medicaid!" -/
  | danger_coverage_gap (magi : ℚ)
  /-- Source string "PERFECT! MAGI $(magi) qualifies for ACA Silver CSR 94% (best coverage!)" -/
  | perfect_optimal (magi : ℚ)
  /-- Source string "GOOD: MAGI $(magi) still qualifies for CSR 94%, but approaching 150% FPL" -/
  | good_but_watch (magi : ℚ)
  /-- Source string "MAGI $(magi) qualifies for CSR 87% (good, but not best)" -/
  | csr_87_range (magi : ℚ)
  /-- Source string "MAGI $(magi) - subsidy only, NO cost-sharing reductions" -/
  | no_csr (magi : ℚ)
  /-- Source string "MAGI $(magi) exceeds 400% FPL ($62,600) - NO subsidies available" -/
  | no_subsidies (magi : ℚ)
  /-- Source string "ACA Open Enrollment: Enroll by December 15 for January 1 coverage" -/
  | open_enrollment_deadline
deriving DecidableEq, Repr

/-- The suggestion strings of the recommendation dicts; f-strings
interpolating a number become constructors carrying that number. -/
inductive Suggestion
  /-- Source string "INCREASE income by $(shortfall) to reach $15,650" -/
  | increase_income_to_minimum (shortfall : ℚ)
  /-- Source string "REDUCE deductible expenses (defer repairs to next year)" -/
  | reduce_deductible_expenses
  /-- Source string "Do not prepay property taxes for 2026" -/
  | dont_prepay_2026_property_taxes
  /-- Source string "Delay depreciation claims if possible" -/
  | delay_depreciation_claims
  /-- Source string "Consider taking less mortgage interest deduction" -/
  | less_mortgage_interest_deduction
  /-- Source string "You are $(headroom_low) above minimum ($15,650)" -/
  | above_minimum_by (amount : ℚ)
  /-- Source string "You have $(headroom_high) headroom before losing CSR 94%" -/
  | headroom_before_losing_csr94 (amount : ℚ)
  /-- Source string "Enroll in Florida Blue BlueOptions Silver PPO by Dec 15" -/
  | enroll_florida_blue_by_dec_15
  /-- Source string "Mayo Clinic and UF Health are IN-NETWORK" -/
  | mayo_uf_in_network
  /-- Source string "Expected premium: $0-50/month, $0 deductible" -/
  | expected_premium_zero_deductible
  /-- Source string "Consider reducing income slightly for safety margin" -/
  | reduce_income_safety_margin
  /-- Source string "$(23475 - magi) headroom before losing CSR 94%" -/
  | headroom_left_for_csr94 (amount : ℚ)
  /-- Source string "Enroll by December 15 for January 1 coverage" -/
  | enroll_by_december_15
  /-- Source string "Reduce MAGI by $(magi - optimal_high) for CSR 94%" (used by both the CSR_87_RANGE and NO_CSR branches) -/
  | reduce_magi_for_csr94 (amount : ℚ)
  /-- Source string "Increase deductible repairs/maintenance" -/
  | increase_deductible_repairs
  /-- Source string "Prepay 2026 property taxes in 2025" -/
  | prepay_2026_property_taxes_in_2025
  /-- Source string "Current benefits: ~$250-500 deductible" -/
  | current_benefits_deductible
  /-- Source string "Higher deductibles and copays at this income" -/
  | higher_deductibles_at_income
  /-- Source string "Consider maximizing all deductions" -/
  | consider_maximizing_deductions
  /-- Source string "Significantly reduce taxable income" -/
  | significantly_reduce_income
  /-- Source string "Maximize all Schedule E deductions" -/
  | maximize_schedule_e_deductions
  /-- Source string "Consider retirement contributions" -/
  | consider_retirement_contributions
  /-- Source string "Website: healthcare.gov" -/
  | website_healthcare_gov
  /-- Source string "Plan: Florida Blue BlueOptions Silver PPO" -/
  | plan_florida_blue_silver
  /-- Source string "Also enroll in dental (Ameritas or Delta Dental PPO)" -/
  | also_enroll_dental
  /-- Source string "12-month waiting period for dental bridges" -/
  | dental_bridge_waiting_period
deriving DecidableEq, Repr

/-- One recommendation dict built by `get_optimization_recommendations`. -/
structure OptRec where
  priority : ℕ
  action_type : ActionType
  rec_description : RecDescription
  potential_savings : ℚ
  impact_on_magi : ℚ
  suggestions : List Suggestion
deriving DecidableEq, Repr

/-- The priority-8 deadline reminder appended unconditionally at the end of
`get_optimization_recommendations`. -/
def deadline_reminder : OptRec :=
  { priority := 8
    action_type := ActionType.DEADLINE_REMINDER
    rec_description := RecDescription.open_enrollment_deadline
    potential_savings := 0
    impact_on_magi := 0
    suggestions := [Suggestion.website_healthcare_gov,
                    Suggestion.plan_florida_blue_silver,
                    Suggestion.also_enroll_dental,
                    Suggestion.dental_bridge_waiting_period] }

/-- The if/elif chain of `get_optimization_recommendations` as a function of
the computed MAGI: one tier-specific entry, then the deadline reminder.
`min_for_aca = OPTIMAL_MAGI_TARGET["minimum"] = 15650` and
`optimal_high = OPTIMAL_MAGI_TARGET["optimal_high"] = 20121`. -/
def recommendations_for_magi (magi : ℚ) : List OptRec :=
  let min_for_aca := OPTIMAL_MAGI_TARGET_minimum
  let optimal_high := OPTIMAL_MAGI_TARGET_optimal_high
  let base : List OptRec :=
    if magi < min_for_aca then
      let shortfall := min_for_aca - magi
      [{ priority := 1
         action_type := ActionType.COVERAGE_GAP_WARNING
         rec_description := RecDescription.danger_coverage_gap magi
         potential_savings := shortfall
         impact_on_magi := shortfall
         suggestions := [Suggestion.increase_income_to_minimum shortfall,
                         Suggestion.reduce_deductible_expenses,
                         Suggestion.dont_prepay_2026_property_taxes,
                         Suggestion.delay_depreciation_claims,
                         Suggestion.less_mortgage_interest_deduction] }]
    else if min_for_aca ≤ magi ∧ magi ≤ optimal_high then
      [{ priority := 10
         action_type := ActionType.OPTIMAL_RANGE
         rec_description := RecDescription.perfect_optimal magi
         potential_savings := 0
         impact_on_magi := 0
         suggestions := [Suggestion.above_minimum_by (magi - min_for_aca),
                         Suggestion.headroom_before_losing_csr94 (optimal_high - magi),
                         Suggestion.enroll_florida_blue_by_dec_15,
                         Suggestion.mayo_uf_in_network,
                         Suggestion.expected_premium_zero_deductible] }]
    else if optimal_high < magi ∧ magi ≤ 23475 then
      [{ priority := 5
         action_type := ActionType.GOOD_BUT_WATCH
         rec_description := RecDescription.good_but_watch magi
         potential_savings := magi - optimal_high
         impact_on_magi := magi - optimal_high
         suggestions := [Suggestion.reduce_income_safety_margin,
                         Suggestion.headroom_left_for_csr94 (23475 - magi),
                         Suggestion.enroll_by_december_15] }]
    else if 23475 < magi ∧ magi ≤ 31300 then
      [{ priority := 3
         action_type := ActionType.CSR_87_RANGE
         rec_description := RecDescription.csr_87_range magi
         potential_savings := magi - optimal_high
         impact_on_magi := magi - optimal_high
         suggestions := [Suggestion.reduce_magi_for_csr94 (magi - optimal_high),
                         Suggestion.increase_deductible_repairs,
                         Suggestion.prepay_2026_property_taxes_in_2025,
                         Suggestion.current_benefits_deductible] }]
    else if 31300 < magi ∧ magi ≤ 62600 then
      [{ priority := 2
         action_type := ActionType.NO_CSR
         rec_description := RecDescription.no_csr magi
         potential_savings := magi - optimal_high
         impact_on_magi := magi - optimal_high
         suggestions := [Suggestion.reduce_magi_for_csr94 (magi - optimal_high),
                         Suggestion.higher_deductibles_at_income,
                         Suggestion.consider_maximizing_deductions] }]
    else
      [{ priority := 1
         action_type := ActionType.NO_SUBSIDIES
         rec_description := RecDescription.no_subsidies magi
         potential_savings := magi - optimal_high
         impact_on_magi := magi - optimal_high
         suggestions := [Suggestion.significantly_reduce_income,
                         Suggestion.maximize_schedule_e_deductions,
                         Suggestion.consider_retirement_contributions] }]
  base ++ [deadline_reminder]

/-- `get_optimization_recommendations(self, tax_year_id)`: computes MAGI via
`calculate_magi` for the current year, then synthesizes the recommendation
list from the resulting MAGI. The per-entry inserts into
`tax_optimization_actions` are writes to the persistence collaborator and do
not affect the returned list. -/
def get_optimization_recommendations (target_program filing_status : String)
    (props : List PropertyRecord) (incomes : List IncomeRecord)
    (expenses : List ExpenseRecord) (current_year : ℤ) : List OptRec :=
  recommendations_for_magi
    (calculate_magi target_program filing_status props incomes expenses
      current_year).magi

end Agent

/-- Helper: the classifier returns `coverage_gap` exactly below 100% FPL. -/
theorem tier_eq_coverage_gap_iff (pct : ℚ) :
    (Engine.determine_eligibility_tier pct).1 = Tier.coverage_gap ↔ pct < 100 := by
  unfold Engine.determine_eligibility_tier
  split_ifs with h1 h2 h3 h4 h5 <;> simp_all

/-- Helper: the classifier returns `csr_94` exactly on [100, 150]. -/
theorem tier_eq_csr94_iff (pct : ℚ) :
    (Engine.determine_eligibility_tier pct).1 = Tier.csr_94 ↔ 100 ≤ pct ∧ pct ≤ 150 := by
  unfold Engine.determine_eligibility_tier
  split_ifs with h1 h2 h3 h4 h5 <;> simp_all <;>
    first
      | linarith
      | (constructor <;> linarith)
      | (intro h; linarith)
      | (intro h h'; linarith)

/-- Helper: the classifier returns `csr_87` exactly on (150, 200]. -/
theorem tier_eq_csr87_iff (pct : ℚ) :
    (Engine.determine_eligibility_tier pct).1 = Tier.csr_87 ↔ 150 < pct ∧ pct ≤ 200 := by
  unfold Engine.determine_eligibility_tier
  split_ifs with h1 h2 h3 h4 h5 <;> simp_all <;>
    first
      | linarith
      | (constructor <;> linarith)
      | (intro h; linarith)
      | (intro h h'; linarith)

/-- Helper: the classifier returns `csr_73` exactly on (200, 250]. -/
theorem tier_eq_csr73_iff (pct : ℚ) :
    (Engine.determine_eligibility_tier pct).1 = Tier.csr_73 ↔ 200 < pct ∧ pct ≤ 250 := by
  unfold Engine.determine_eligibility_tier
  split_ifs with h1 h2 h3 h4 h5 <;> simp_all <;>
    first
      | linarith
      | (constructor <;> linarith)
      | (intro h; linarith)
      | (intro h h'; linarith)

/-- Helper: the classifier returns `subsidy_only` exactly on (250, 400]. -/
theorem tier_eq_subsidy_only_iff (pct : ℚ) :
    (Engine.determine_eligibility_tier pct).1 = Tier.subsidy_only ↔ 250 < pct ∧ pct ≤ 400 := by
  unfold Engine.determine_eligibility_tier
  split_ifs with h1 h2 h3 h4 h5 <;> simp_all <;>
    first
      | linarith
      | (constructor <;> linarith)
      | (intro h; linarith)
      | (intro h h'; linarith)

/-- Helper: the classifier returns `no_subsidy` exactly above 400%. -/
theorem tier_eq_no_subsidy_iff (pct : ℚ) :
    (Engine.determine_eligibility_tier pct).1 = Tier.no_subsidy ↔ 400 < pct := by
  unfold Engine.determine_eligibility_tier
  split_ifs with h1 h2 h3 h4 h5 <;> simp_all <;>
    first
      | linarith
      | (constructor <;> linarith)
      | (intro h; linarith)
      | (intro h h'; linarith)

/-- Helper: sums over the two halves of a Boolean partition of a list add up
to the sum over the whole list. -/
theorem sum_map_filter_partition {α : Type} (f : α → ℚ) (p : α → Bool)
    (l : List α) :
    ((l.filter p).map f).sum + ((l.filter (fun a => !p a)).map f).sum =
      (l.map f).sum := by
  induction l with
  | nil => simp
  | cons a t ih =>
      by_cases h : p a <;> simp [List.filter_cons, h] <;> linarith

/-- Helper: the priorities emitted by the recommendation synthesizer, as a
function of MAGI. -/
theorem recommendations_priorities (magi : ℚ) :
    (Agent.recommendations_for_magi magi).map Agent.OptRec.priority =
      if magi < 15650 then [1, 8]
      else if 15650 ≤ magi ∧ magi ≤ 20121 then [10, 8]
      else if 20121 < magi ∧ magi ≤ 23475 then [5, 8]
      else if 23475 < magi ∧ magi ≤ 31300 then [3, 8]
      else if 31300 < magi ∧ magi ≤ 62600 then [2, 8]
      else [1, 8] := by
  simp only [Agent.recommendations_for_magi, Agent.OPTIMAL_MAGI_TARGET_minimum,
    Agent.OPTIMAL_MAGI_TARGET_optimal_high]
  split_ifs <;> rfl

/-- C1: for every MAGI m and household size h the classifier computes the
poverty-level percentage as (m / poverty-level-for-h) * 100 and maps it
through ascending bands with inclusive upper bounds: below 100 coverage_gap,
[100, 150] csr_94, (150, 200] csr_87, (200, 250] csr_73, (250, 400]
subsidy_only, above 400 no_subsidy; a percentage exactly equal to an upper
bound (150, 200, 250, 400) resolves to the lower (better) tier. -/
theorem C1_tier_band_selection :
    (∀ (m : ℚ) (h : ℕ),
      Engine.calculate_fpl_percentage m h = m / Engine.fplLookup h * 100) ∧
    (∀ pct : ℚ,
      ((Engine.determine_eligibility_tier pct).1 = Tier.coverage_gap ↔ pct < 100) ∧
      ((Engine.determine_eligibility_tier pct).1 = Tier.csr_94 ↔ 100 ≤ pct ∧ pct ≤ 150) ∧
      ((Engine.determine_eligibility_tier pct).1 = Tier.csr_87 ↔ 150 < pct ∧ pct ≤ 200) ∧
      ((Engine.determine_eligibility_tier pct).1 = Tier.csr_73 ↔ 200 < pct ∧ pct ≤ 250) ∧
      ((Engine.determine_eligibility_tier pct).1 = Tier.subsidy_only ↔ 250 < pct ∧ pct ≤ 400) ∧
      ((Engine.determine_eligibility_tier pct).1 = Tier.no_subsidy ↔ 400 < pct)) ∧
    (Engine.determine_eligibility_tier 150).1 = Tier.csr_94 ∧
    (Engine.determine_eligibility_tier 200).1 = Tier.csr_87 ∧
    (Engine.determine_eligibility_tier 250).1 = Tier.csr_73 ∧
    (Engine.determine_eligibility_tier 400).1 = Tier.subsidy_only := by
  refine ⟨fun m h => rfl,
    fun pct => ⟨tier_eq_coverage_gap_iff pct, tier_eq_csr94_iff pct,
      tier_eq_csr87_iff pct, tier_eq_csr73_iff pct,
      tier_eq_subsidy_only_iff pct, tier_eq_no_subsidy_iff pct⟩,
    by decide, by decide, by decide, by decide⟩

/-- C2: net qualifying income equals gross income - vacancy loss + other
income - total expenses, where total expenses is the sum of all matching
expense amounts plus every property's annual depreciation, and each income
record's vacancy loss is (gross rent / 30) * vacancy days independent of the
month; includes the concrete aggregation scenario of the spec (12 months of
rent 3000, expenses 10000, depreciation 5000, net 21000). -/
theorem C2_net_income_formula :
    (∀ (tp fs : String) (props : List Agent.PropertyRecord)
       (incomes : List Agent.IncomeRecord) (expenses : List Agent.ExpenseRecord)
       (year : ℤ),
      (Agent.calculate_magi tp fs props incomes expenses year).net_rental_income =
        ((incomes.filter (fun r =>
            (props.map (fun p => p.id)).contains r.property_id && r.year == year)).map
          (fun r => r.gross_rent)).sum
        - ((incomes.filter (fun r =>
            (props.map (fun p => p.id)).contains r.property_id && r.year == year)).map
          (fun r => r.vacancy_loss)).sum
        + ((incomes.filter (fun r =>
            (props.map (fun p => p.id)).contains r.property_id && r.year == year)).map
          (fun r => r.other_income)).sum
        - (((expenses.filter (fun e =>
            (props.map (fun p => p.id)).contains e.property_id && e.year == year)).map
          (fun e => e.amount)).sum
          + ((props.map (fun p => p.annual_depreciation)).sum))) ∧
    (∀ (pid : ℕ) (y : ℤ) (m : ℕ) (rent : ℚ) (days : ℕ) (oi : ℚ),
      (Agent.record_rental_income pid y m rent days oi).vacancy_loss =
        rent / 30 * days) ∧
    (Agent.calculate_magi "medicaid" "single"
      [{ id := 1, purchase_price := 0, current_market_value := 0,
         mortgage_balance := 0, depreciation_basis := 0,
         annual_depreciation := 5000 }]
      (List.replicate 12 (Agent.record_rental_income 1 2026 1 3000 0 0))
      [{ property_id := 1, year := 2026, month := none, category := "repairs",
         amount := 10000, schedule_e_line := 14 }]
      2026).net_rental_income = 21000 := by
  refine ⟨fun tp fs props incomes expenses year => rfl,
    fun pid y m rent days oi => rfl, ?_⟩
  simp [Agent.calculate_magi, Agent.record_rental_income, List.sum_replicate]
  norm_num

/-- C3: a failing persistence write during recommendation generation is
caught at the boundary and converted to the console warning, and the
recommendation returned (every field: tier, description, plans, action
items, warnings, tips, savings) is identical to the one returned when the
write succeeds or when no client is configured; a result is always
returned. -/
theorem C3_persistence_failure_preserves_result :
    (∀ (magi : ℚ) (h : ℕ) (now : String)
       (sb1 sb2 : Option (Engine.InsuranceRecommendation → Except String Unit)),
      (Engine.generate_recommendation sb1 now magi h).1 =
        (Engine.generate_recommendation sb2 now magi h).1) ∧
    (∀ (magi : ℚ) (h : ℕ) (now e : String),
      (Engine.generate_recommendation (some (fun _ => Except.error e))
        now magi h).2 =
        ["Warning: Could not store recommendation: " ++ e]) := by
  constructor
  · intro magi h now sb1 sb2
    cases sb1 <;> cases sb2 <;> rfl
  · intro magi h now e
    rfl

/-- C4 counterexample: for household size 2 and MAGI 18000 the FPL percentage
is about 85.1, so the tier is coverage_gap, yet the shortfall interpolated
into the action item is 15650 - 18000 = -2350, which is negative — the claim
that the shortfall is strictly positive whenever the tier is coverage-gap is
false. -/
theorem C4_counterexample :
    (Engine.determine_eligibility_tier
      (Engine.calculate_fpl_percentage 18000 2)).1 = Tier.coverage_gap ∧
    Engine.generate_action_items Tier.coverage_gap 18000 =
      [Engine.ActionItem.urgent_increase_income (15650 - 18000),
       Engine.ActionItem.review_deductions,
       Engine.ActionItem.report_side_income,
       Engine.ActionItem.do_not_prepay_expenses] ∧
    (15650 - 18000 : ℚ) < 0 := by
  refine ⟨?_, rfl, by norm_num⟩
  norm_num [Engine.calculate_fpl_percentage, Engine.fplLookup, Engine.FPL_2026,
    Engine.determine_eligibility_tier]

/-- C4 (amended): the reported shortfall always equals 15650 - magi, and it
is strictly positive whenever the tier is coverage_gap AND the poverty level
used for the household is the single-person figure 15650 (household size 1
or any size outside the table). -/
theorem C4_shortfall_amended (magi : ℚ) (h : ℕ)
    (hf : Engine.fplLookup h = 15650)
    (ht : (Engine.determine_eligibility_tier
      (Engine.calculate_fpl_percentage magi h)).1 = Tier.coverage_gap) :
    (Engine.generate_action_items Tier.coverage_gap magi).head? =
      some (Engine.ActionItem.urgent_increase_income (15650 - magi)) ∧
    0 < 15650 - magi := by
  rw [tier_eq_coverage_gap_iff] at ht
  unfold Engine.calculate_fpl_percentage at ht
  rw [hf] at ht
  refine ⟨rfl, ?_⟩
  nlinarith [ht]

/-- C4 witness: household size 1, MAGI 12000 — coverage gap, shortfall
3650 positive. -/
theorem C4_shortfall_amended_witness :
    (Engine.generate_action_items Tier.coverage_gap 12000).head? =
      some (Engine.ActionItem.urgent_increase_income (15650 - 12000)) ∧
    (0 : ℚ) < 15650 - 12000 :=
  C4_shortfall_amended 12000 1 rfl
    (by norm_num [Engine.calculate_fpl_percentage, Engine.fplLookup,
      Engine.FPL_2026, Engine.determine_eligibility_tier])

/-- C5 counterexample: the fallback is silent, not observable — for the
out-of-table household size 99 the engine returns exactly the same bare
percentage as for household size 1, and for an unknown program the income
goal is the same bare number as for medicaid/single; neither result carries
any log or diagnostic marker of the fallback (the source performs no logging
at either lookup). -/
theorem C5_counterexample :
    Engine.FPL_2026 99 = none ∧
    Engine.calculate_fpl_percentage 20000 99 =
      Engine.calculate_fpl_percentage 20000 1 ∧
    Agent.THRESHOLDS_2025_income "snap" "single" = none ∧
    Agent.income_goal "snap" "single" = Agent.income_goal "medicaid" "single" ∧
    Agent.income_goal "snap" "single" = 20121 := by
  refine ⟨rfl, rfl, rfl, rfl, rfl⟩

/-- C5 (amended): an unknown household size falls back to the single-person
poverty level 15650 and an unknown target program / filing status to the
default income goal 20121, without failing — but silently: the result for an
unknown household size is indistinguishable from the household-size-1
result. -/
theorem C5_lookup_fallback_amended :
    (∀ (m : ℚ) (h : ℕ), Engine.FPL_2026 h = none →
      Engine.fplLookup h = 15650 ∧
      Engine.calculate_fpl_percentage m h = Engine.calculate_fpl_percentage m 1) ∧
    (∀ p s : String, Agent.THRESHOLDS_2025_income p s = none →
      Agent.income_goal p s = 20121) := by
  constructor
  · intro m h hnone
    have h1 : Engine.fplLookup h = 15650 := by
      unfold Engine.fplLookup
      rw [hnone]
      rfl
    refine ⟨h1, ?_⟩
    unfold Engine.calculate_fpl_percentage
    rw [h1]
    rfl
  · intro p s hnone
    unfold Agent.income_goal
    rw [hnone]
    rfl

/-- C5 witness: household size 99 and program "snap" take the fallbacks. -/
theorem C5_lookup_fallback_amended_witness :
    Engine.fplLookup 99 = 15650 ∧ Agent.income_goal "snap" "single" = 20121 :=
  ⟨(C5_lookup_fallback_amended.1 0 99 (by decide)).1,
   C5_lookup_fallback_amended.2 "snap" "single" (by decide)⟩

/-- C6 counterexample: for MAGI 18000 (the optimal range) the synthesizer
emits priorities [10, 8] — the steady-state status notice (priority 10)
precedes the priority-8 deadline reminder, so the list is not in
non-decreasing priority order. -/
theorem C6_counterexample :
    (Agent.recommendations_for_magi 18000).map Agent.OptRec.priority = [10, 8] ∧
    ¬ List.Sorted (· ≤ ·)
      ((Agent.recommendations_for_magi 18000).map Agent.OptRec.priority) := by
  have h : (Agent.recommendations_for_magi 18000).map Agent.OptRec.priority
      = [10, 8] := by
    rw [recommendations_priorities]
    norm_num
  refine ⟨h, ?_⟩
  rw [h]
  decide

/-- C6 (amended): every call emits a tier-specific entry followed by the
fixed priority-8 deadline reminder; for every MAGI outside the optimal range
[15650, 20121] the emitted priorities are non-decreasing (coverage-gap and
over-threshold entries, priority 1-2, outrank the reminder); inside the
optimal range the priority-10 status notice precedes the reminder. -/
theorem C6_priority_order_amended (magi : ℚ)
    (hm : magi < 15650 ∨ 20121 < magi) :
    List.Sorted (· ≤ ·)
      ((Agent.recommendations_for_magi magi).map Agent.OptRec.priority) := by
  rw [recommendations_priorities]
  split_ifs with h1 h2 h3 h4 h5 <;>
    first
      | decide
      | (exfalso; rcases hm with hm | hm <;> linarith [h2.1, h2.2])

/-- C6 witness: MAGI 12000 (coverage gap) emits priorities in order. -/
theorem C6_priority_order_amended_witness :
    List.Sorted (· ≤ ·)
      ((Agent.recommendations_for_magi 12000).map Agent.OptRec.priority) :=
  C6_priority_order_amended 12000 (Or.inl (by norm_num))

/-- C7 counterexample: the ACA programs define no asset limit (None), yet the
checker does not short-circuit to always-under-limit: it always compares
against the Medicaid limit, so a tax year targeting aca_bronze with 5000 of
countable assets is reported over the limit. -/
theorem C7_counterexample :
    Agent.aca_bronze_asset_limit = none ∧
    (Agent.check_asset_eligibility "single"
      [{ asset_type := "brokerage", current_value := 5000,
         is_countable := true, exempt_reason := none }]).under_limit = false := by
  refine ⟨rfl, ?_⟩
  norm_num [Agent.check_asset_eligibility, Agent.medicaid_asset_limit_single]

/-- C7 (amended): the checker partitions tracked assets by their countability
flag (countable total + exempt total = total of all tracked assets) and
compares the countable sum to the Medicaid asset limit for the filing status
(2000 single, 3000 otherwise) regardless of the tax year's target program;
there is no no-limit short-circuit. -/
theorem C7_asset_partition_amended (fs : String) (assets : List Agent.Asset) :
    (Agent.check_asset_eligibility fs assets).total_countable +
      (Agent.check_asset_eligibility fs assets).total_exempt =
      ((assets.map (fun a => a.current_value)).sum) ∧
    (Agent.check_asset_eligibility fs assets).asset_limit =
      (if fs = "single" then 2000 else 3000) ∧
    (Agent.check_asset_eligibility fs assets).under_limit =
      decide ((Agent.check_asset_eligibility fs assets).total_countable ≤
        (Agent.check_asset_eligibility fs assets).asset_limit) := by
  refine ⟨?_, ?_, rfl⟩
  · exact sum_map_filter_partition (fun a => a.current_value)
      (fun a => a.is_countable) assets
  · rfl

/-- C8 counterexample: a negative amount with a valid category is accepted
and recorded as-is, not rejected — the source validates only the category. -/
theorem C8_counterexample :
    Agent.record_expense 1 2026 "repairs" (-100) none =
      Except.ok { property_id := 1, year := 2026, month := none,
                  category := "repairs", amount := -100,
                  schedule_e_line := 14 } := by
  rfl

/-- C8 (amended): recording an expense fails exactly when the category is
outside the fixed Schedule E set, and succeeds — storing the amount
unchanged, whatever its sign — for every category in the set; the amount is
never validated or coerced. -/
theorem C8_expense_validation_amended (pid : ℕ) (year : ℤ) (category : String)
    (amount : ℚ) (month : Option ℕ) :
    (Agent.schedule_e_line category = none →
      Agent.record_expense pid year category amount month =
        Except.error "Invalid category") ∧
    (∀ line : ℕ, Agent.schedule_e_line category = some line →
      Agent.record_expense pid year category amount month =
        Except.ok { property_id := pid, year := year, month := month,
                    category := category, amount := amount,
                    schedule_e_line := line }) := by
  constructor
  · intro hnone
    unfold Agent.record_expense
    rw [hnone]
  · intro line hline
    unfold Agent.record_expense
    rw [hline]

/-- C8 witness: "bogus" is rejected; "repairs" (Schedule E line 14) is
accepted. -/
theorem C8_expense_validation_amended_witness :
    Agent.record_expense 1 2026 "bogus" 500 none =
      Except.error "Invalid category" ∧
    Agent.record_expense 1 2026 "repairs" 500 none =
      Except.ok { property_id := 1, year := 2026, month := none,
                  category := "repairs", amount := 500,
                  schedule_e_line := 14 } :=
  ⟨(C8_expense_validation_amended 1 2026 "bogus" 500 none).1 rfl,
   (C8_expense_validation_amended 1 2026 "repairs" 500 none).2 14 rfl⟩

/-- C9 counterexample: 198% FPL is within 5 percentage points of the 200%
tier boundary (tier csr_87), yet the generated warnings list is empty — the
code only has windows around 150% and 400%. -/
theorem C9_counterexample :
    (Engine.determine_eligibility_tier 198).1 = Tier.csr_87 ∧
    Engine.generate_warnings Tier.csr_87 30987 198 = [] := by
  refine ⟨by decide, by decide⟩

/-- C9 (amended): warnings flag only the coverage-gap band (both gap warnings
appear exactly when the tier is coverage_gap), proximity to the 150%
boundary via the symmetric window 145 ≤ pct ≤ 155, and the 400% cliff via
the one-sided condition pct ≥ 395; the 100%, 200% and 250% transitions
trigger no proximity warning. -/
theorem C9_warning_windows_amended (tier : Tier) (magi pct : ℚ) :
    (Engine.Warning.florida_coverage_gap ∈
        Engine.generate_warnings tier magi pct ↔ tier = Tier.coverage_gap) ∧
    (Engine.Warning.uninsured_hospital_cost ∈
        Engine.generate_warnings tier magi pct ↔ tier = Tier.coverage_gap) ∧
    (Engine.Warning.csr_tier_boundary ∈
        Engine.generate_warnings tier magi pct ↔ 145 ≤ pct ∧ pct ≤ 155) ∧
    (Engine.Warning.subsidy_cliff_400 ∈
        Engine.generate_warnings tier magi pct ↔ 395 ≤ pct) := by
  unfold Engine.generate_warnings
  split_ifs with h1 h2 h3 <;> simp_all

/-- C10: the recommendation's tier is determined from the unrounded FPL
percentage while the stored fpl_percentage is rounded to one decimal; at
MAGI 23480 and household size 1 the unrounded percentage is 150 + 10/313
(about 150.03), so the returned recommendation carries fpl_percentage
exactly 150.0 together with tier csr_87. -/
theorem C10_rounded_percentage_vs_tier :
    (∀ (magi : ℚ) (h : ℕ) (now : String)
       (sb : Option (Engine.InsuranceRecommendation → Except String Unit)),
      (Engine.generate_recommendation sb now magi h).1.eligibility_tier =
        (Engine.determine_eligibility_tier
          (Engine.calculate_fpl_percentage magi h)).1 ∧
      (Engine.generate_recommendation sb now magi h).1.fpl_percentage =
        Engine.round_to_tenth (Engine.calculate_fpl_percentage magi h)) ∧
    (Engine.generate_recommendation none "" 23480 1).1.fpl_percentage = 150 ∧
    (Engine.generate_recommendation none "" 23480 1).1.eligibility_tier =
      Tier.csr_87 ∧
    150 < Engine.calculate_fpl_percentage 23480 1 := by
  have hpct : Engine.calculate_fpl_percentage 23480 1 = 46960 / 313 := by
    norm_num [Engine.calculate_fpl_percentage, Engine.fplLookup, Engine.FPL_2026]
  have hfloor : Int.floor ((10 : ℚ) * (46960 / 313)) = 1500 := by
    rw [Int.floor_eq_iff]
    constructor <;> norm_num
  have hrhe : Engine.round_half_even (10 * (46960 / 313)) = 1500 := by
    simp only [Engine.round_half_even]
    rw [hfloor]
    norm_num
  refine ⟨?_, ?_, ?_, ?_⟩
  · intro magi h now sb
    cases sb <;> exact ⟨rfl, rfl⟩
  · show Engine.round_to_tenth (Engine.calculate_fpl_percentage 23480 1) = 150
    rw [hpct]
    simp only [Engine.round_to_tenth]
    rw [hrhe]
    norm_num
  · show (Engine.determine_eligibility_tier
      (Engine.calculate_fpl_percentage 23480 1)).1 = Tier.csr_87
    rw [hpct]
    norm_num [Engine.determine_eligibility_tier]
  · rw [hpct]
    norm_num
